import Mathlib

/-!
Shallow embedding of `src/server.go` (package main of the lnd daemon server):
the peer registry, its actor-loop operations (`addPeer`, `removePeer`,
`handleListPeers`, `handleConnectPeer`), the outbound connect dialer
goroutine, and the `Stop` teardown path.

Go maps are modelled as association lists with the usual lookup / insert /
delete operations; channel sends are modelled as explicit event lists in the
order the code performs them; `p.Stop()` calls on peers are collected in a
list.  The `int32` atomics `started` / `shutdown` are modelled as natural
counters (the code only compares them with 0 and 1; overflow is irrelevant
at those magnitudes).
-/

namespace LndServer

/-- Model of `*peer` as used by server.go: an id (`p.id`, an int32) and the
remote logical address (`peer.lightningAddr.String()`). -/
structure Peer where
  id : Int
  lightningAddr : String
deriving DecidableEq, Repr

/-- Model of `wire.OutPoint` (a txid hash plus an output index); the claims
only need decidable equality of keys. -/
structure OutPoint where
  txidHash : Nat
  index : Nat
deriving DecidableEq, Repr

/-- A `net.Listener` as `Stop` sees it: the result its `Close()` call will
return (`none` = success). -/
structure Listener where
  closeErr : Option String
deriving DecidableEq, Repr

/-- Association-list lookup: model of reading a Go map. -/
def alookup {α β : Type} [DecidableEq α] : List (α × β) → α → Option β
  | [], _ => none
  | (k, v) :: rest, k' => if k = k' then some v else alookup rest k'

/-- Association-list insert with overwrite: model of `m[k] = v` on a Go map. -/
def ainsert {α β : Type} [DecidableEq α] : List (α × β) → α → β → List (α × β)
  | [], k, v => [(k, v)]
  | (k', v') :: rest, k, v =>
    if k' = k then (k, v) :: rest else (k', v') :: ainsert rest k v

/-- Association-list delete (all occurrences of the key): model of
`delete(m, k)` on a Go map (keys are unique in a Go map, so removing every
occurrence agrees with removing the one entry). -/
def adelete {α β : Type} [DecidableEq α] : List (α × β) → α → List (α × β)
  | [], _ => []
  | (k', v') :: rest, k =>
    if k' = k then adelete rest k else (k', v') :: adelete rest k

/-- `peers map[int32]*peer` of the server struct. -/
abbrev PeerMap := List (Int × Peer)

/-- The fields of the `server` struct (src/server.go lines 24-52) that the
claims touch: the two atomic counters, the listeners, the peer-id map, the
channel-outpoint index, and whether `close(s.quit)` has happened. -/
structure ServerState where
  started : Nat
  shutdown : Nat
  listeners : List Listener
  peers : PeerMap
  chanIndex : List (OutPoint × Peer)
  quitClosed : Bool
deriving DecidableEq, Repr

/-- `addPeer` (src/server.go lines 169-181).  Returns the new server state
and the list of peers on which `p.Stop()` was invoked.  `none` models the
`p == nil` guard; a non-zero `shutdown` counter models
`atomic.LoadInt32(&s.shutdown) != 0`. -/
def addPeer (s : ServerState) (p : Option Peer) : ServerState × List Peer :=
  match p with
  | none => (s, [])
  | some p =>
    if s.shutdown ≠ 0 then
      (s, [p])
    else
      ({ s with peers := ainsert s.peers p.id p }, [])

/-- `removePeer` (src/server.go lines 185-197), same conventions as
`addPeer`. -/
def removePeer (s : ServerState) (p : Option Peer) : ServerState × List Peer :=
  match p with
  | none => (s, [])
  | some p =>
    if s.shutdown ≠ 0 then
      (s, [p])
    else
      ({ s with peers := adelete s.peers p.id }, [])

/-- `handleListPeers` (src/server.go lines 239-246): builds a fresh slice
with `make` and appends every value of the `peers` map in iteration order,
then sends it on `msg.resp`.  The returned list is the single value sent. -/
def handleListPeers (s : ServerState) : List Peer :=
  s.peers.map (fun e => e.2)

/-- The values `handleConnectPeer` pushes into `msg.err` and `msg.resp`
during its duplicate-address scan (src/server.go lines 256-265): for every
registered peer whose `lightningAddr.String()` equals the requested
address it sends one formatted error and one `-1`, and it keeps scanning. -/
def scanSends : PeerMap → String → List String × List Int
  | [], _ => ([], [])
  | (_, q) :: rest, addr =>
    if q.lightningAddr = addr then
      (("already connected to peer: " ++ q.lightningAddr) :: (scanSends rest addr).1,
        (-1 : Int) :: (scanSends rest addr).2)
    else
      scanSends rest addr

/-- Result of the synchronous part of `handleConnectPeer` (src/server.go
lines 251-314): the sequences of values sent into the two reply channels by
the scan, and whether the outbound-dial goroutine was launched. -/
structure ConnectScanResult where
  errSends : List String
  respSends : List Int
  dialLaunched : Bool
deriving DecidableEq, Repr

/-- `handleConnectPeer`, synchronous part: runs the duplicate scan over the
whole map and then unconditionally launches the dial goroutine (the
`go func() {...}()` at lines 271-313 is not guarded by the scan outcome). -/
def handleConnectPeer (s : ServerState) (addr : String) : ConnectScanResult :=
  { errSends := (scanSends s.peers addr).1
    respSends := (scanSends s.peers addr).2
    dialLaunched := true }

/-- Outcome of the network steps inside the dial goroutine: `conn.Dial`
fails, `newPeer` fails, or a peer is produced. -/
inductive DialOutcome
  | dialFailure (e : String)
  | newPeerFailure (e : String)
  | success (p : Peer)
deriving DecidableEq, Repr

/-- Whether the outcome is one of the two failure paths. -/
def DialOutcome.isFailure : DialOutcome → Bool
  | .dialFailure _ => true
  | .newPeerFailure _ => true
  | .success _ => false

/-- One observable action of the dial goroutine: a send on `msg.err`, a
send on `msg.resp`, a `peer.Start()` call, or a publish on `s.newPeers`. -/
inductive DialEvent
  | errSend (e : Option String)
  | respSend (i : Int)
  | startPeer (p : Peer)
  | publishNewPeer (p : Peer)
deriving DecidableEq, Repr

/-- The dial goroutine of `handleConnectPeer` (src/server.go lines
271-313).  It takes the peer map only to show it never changes it: the
goroutine never assigns to `s.peers`; on success it merely publishes the
new peer on the `s.newPeers` channel.  Events are listed in program
order: on `Dial` failure `msg.err <- err; msg.resp <- -1; return`; on
`newPeer` failure `msg.resp <- -1; msg.err <- err; return`; on success
`peer.Start(); s.newPeers <- peer; msg.resp <- peer.id; msg.err <- nil`. -/
def connectDialer (peers : PeerMap) (o : DialOutcome) : PeerMap × List DialEvent :=
  match o with
  | .dialFailure e => (peers, [.errSend (some e), .respSend (-1)])
  | .newPeerFailure e => (peers, [.respSend (-1), .errSend (some e)])
  | .success p =>
      (peers, [.startPeer p, .publishNewPeer p, .respSend p.id, .errSend none])

/-- The side effects `Stop` performed: how many listener `Close()` calls
were made, whether each collaborator teardown hook ran, and whether
`close(s.quit)` was executed. -/
structure StopEffects where
  closeCalls : Nat
  rpcStopped : Bool
  walletShutdown : Bool
  fundingStopped : Bool
  quitBroadcast : Bool
deriving DecidableEq, Repr

/-- The listener-closing loop of `Stop` (src/server.go lines 122-126):
closes listeners in order and returns `(number of Close calls made, first
error if any)`; on the first error the loop is abandoned. -/
def closeListeners : List Listener → Nat × Option String
  | [] => (0, none)
  | l :: rest =>
    match l.closeErr with
    | some e => (1, some e)
    | none => ((closeListeners rest).1 + 1, (closeListeners rest).2)

/-- `Stop` (src/server.go lines 115-138).  `atomic.AddInt32(&s.shutdown, 1)`
is modelled by incrementing the counter; if the result is not 1 the call
returns `nil` at once with no effects.  Otherwise listeners are closed in
order, and on the first `Close` error that error is returned with the rest
of the teardown skipped; on success the rpc server, wallet and funding
manager hooks run and `close(s.quit)` is executed. -/
def Stop (s : ServerState) : ServerState × StopEffects × Option String :=
  if s.shutdown + 1 ≠ 1 then
    ({ s with shutdown := s.shutdown + 1 },
      ⟨0, false, false, false, false⟩, none)
  else
    match (closeListeners s.listeners).2 with
    | some e =>
      ({ s with shutdown := s.shutdown + 1 },
        ⟨(closeListeners s.listeners).1, false, false, false, false⟩, some e)
    | none =>
      ({ s with shutdown := s.shutdown + 1, quitClosed := true },
        ⟨(closeListeners s.listeners).1, true, true, true, true⟩, none)

/-- The registry invariant of the spec: every entry of the channel-outpoint
index references a peer whose id is present in the peer-id map. -/
def chanIndexOk (s : ServerState) : Bool :=
  s.chanIndex.all (fun e => (alookup s.peers e.2.id).isSome)

/-- Well-formedness of the peer map as established by `addPeer` being the
only writer: keys are unique (it is a Go map) and every stored peer is
keyed by its own id (`s.peers[p.id] = p`). -/
def wellFormedPeers (m : PeerMap) : Prop :=
  (m.map Prod.fst).Nodup ∧ ∀ e ∈ m, e.2.id = e.1

/-- Where the `queryHandler` goroutine is in its life: still in its
`for/select` loop (src/server.go lines 217-236), or exited after taking the
`<-s.quit` branch (it never re-enters the loop). -/
inductive HandlerPhase
  | looping
  | exited
deriving DecidableEq, Repr

/-- Where a caller of `Peers()` (src/server.go lines 333-339) is: blocked
on the unguarded `s.queries <- &listPeersMsg{resp}` send, blocked on
`<-resp`, or returned. -/
inductive CallerPhase
  | sending
  | awaitingReply
  | returned
deriving DecidableEq, Repr

/-- Joint state of the query handler, the `quit` channel and one `Peers()`
caller. -/
structure QuerySysState where
  handler : HandlerPhase
  quitClosed : Bool
  caller : CallerPhase
deriving DecidableEq, Repr

/-- The possible transitions, read off the code.
`recvQuery`: the rendezvous on the unbuffered `s.queries` channel; it needs
the handler to be at its `select` (`case query := <-s.queries`), and moves
the caller to waiting on `<-resp`.
`reply`: `handleListPeers` sends on `msg.resp` and the caller returns.
`observeQuit`: with `quit` closed the handler may take `case <-s.quit`,
`break out` and exit its loop.  No transition brings an exited handler
back to the loop, and `Peers()` has no alternative to its send (no
`select`, no `quit` case, no shutdown check). -/
inductive QueryStep : QuerySysState → QuerySysState → Prop
  | recvQuery (q : Bool) :
      QueryStep ⟨.looping, q, .sending⟩ ⟨.looping, q, .awaitingReply⟩
  | reply (q : Bool) :
      QueryStep ⟨.looping, q, .awaitingReply⟩ ⟨.looping, q, .returned⟩
  | observeQuit (c : CallerPhase) :
      QueryStep ⟨.looping, true, c⟩ ⟨.exited, true, c⟩

/-! Lemmas about the association-list model of Go maps. -/

theorem alookup_ainsert {α β : Type} [DecidableEq α] (m : List (α × β)) (k k' : α) (v : β) :
    alookup (ainsert m k v) k' = if k = k' then some v else alookup m k' := by
  induction m with
  | nil => simp [ainsert, alookup]
  | cons e rest ih =>
    obtain ⟨k1, v1⟩ := e
    by_cases h1 : k1 = k
    · subst h1
      by_cases h2 : k1 = k'
      · simp [ainsert, alookup, h2]
      · simp [ainsert, alookup, h2]
    · by_cases h2 : k1 = k'
      · subst h2
        have hk : k ≠ k1 := fun h => h1 h.symm
        simp [ainsert, alookup, h1, hk]
      · simp [ainsert, alookup, h1, h2, ih]

theorem alookup_adelete {α β : Type} [DecidableEq α] (m : List (α × β)) (k k' : α) :
    alookup (adelete m k) k' = if k = k' then none else alookup m k' := by
  induction m with
  | nil => simp [adelete, alookup]
  | cons e rest ih =>
    obtain ⟨k1, v1⟩ := e
    by_cases h1 : k1 = k
    · subst h1
      by_cases h2 : k1 = k'
      · subst h2
        simp [adelete, ih]
      · simp [adelete, alookup, h2, ih]
    · by_cases h2 : k1 = k'
      · subst h2
        have hk : k ≠ k1 := fun h => h1 h.symm
        simp [adelete, alookup, h1, hk]
      · simp [adelete, alookup, h1, h2, ih]

theorem adelete_of_alookup_none {α β : Type} [DecidableEq α]
    (m : List (α × β)) (k : α) (h : alookup m k = none) : adelete m k = m := by
  induction m with
  | nil => rfl
  | cons e rest ih =>
    obtain ⟨k1, v1⟩ := e
    by_cases h1 : k1 = k
    · simp [alookup, h1] at h
    · simp [alookup, h1] at h
      simp [adelete, h1, ih h]

theorem addPeer_state (s : ServerState) (p : Peer) (hs : s.shutdown = 0) :
    (addPeer s (some p)).1 = { s with peers := ainsert s.peers p.id p } := by
  simp [addPeer, hs]

theorem addPeer_state_sd (s : ServerState) (p : Peer) (hs : s.shutdown ≠ 0) :
    (addPeer s (some p)).1 = s := by
  simp [addPeer, hs]

theorem removePeer_state (s : ServerState) (p : Peer) (hs : s.shutdown = 0) :
    (removePeer s (some p)).1 = { s with peers := adelete s.peers p.id } := by
  simp [removePeer, hs]

theorem removePeer_state_sd (s : ServerState) (p : Peer) (hs : s.shutdown ≠ 0) :
    (removePeer s (some p)).1 = s := by
  simp [removePeer, hs]

theorem closeListeners_ok_count (ls : List Listener)
    (h : (closeListeners ls).2 = none) : (closeListeners ls).1 = ls.length := by
  induction ls with
  | nil => rfl
  | cons l rest ih =>
    cases hc : l.closeErr with
    | some e => simp [closeListeners, hc] at h
    | none =>
      simp only [closeListeners, hc] at h ⊢
      simp [ih h]

/-- C7: `addPeer` is a no-op on the registry when the peer is absent
(`nil`); when the shutdown flag is set it stops the peer and leaves the
peer map unchanged (the peer is never registered); otherwise it registers
the peer in the map under its id (and stops nothing). -/
theorem addPeer_spec (s : ServerState) (p : Peer) :
    addPeer s none = (s, []) ∧
    (s.shutdown ≠ 0 →
      (addPeer s (some p)).1.peers = s.peers ∧ (addPeer s (some p)).2 = [p]) ∧
    (s.shutdown = 0 →
      alookup (addPeer s (some p)).1.peers p.id = some p ∧
      (addPeer s (some p)).2 = []) := by
  refine ⟨rfl, fun h => ?_, fun h => ?_⟩
  · simp [addPeer, h]
  · simp [addPeer, h, alookup_ainsert]

theorem addPeer_spec_witness :
    addPeer ⟨1, 0, [], [], [], false⟩ none = (⟨1, 0, [], [], [], false⟩, []) ∧
    ((addPeer ⟨1, 1, [], [], [], false⟩ (some ⟨7, "X"⟩)).1.peers = [] ∧
      (addPeer ⟨1, 1, [], [], [], false⟩ (some ⟨7, "X"⟩)).2 = [⟨7, "X"⟩]) ∧
    (alookup (addPeer ⟨1, 0, [], [], [], false⟩ (some ⟨7, "X"⟩)).1.peers 7 =
        some ⟨7, "X"⟩ ∧
      (addPeer ⟨1, 0, [], [], [], false⟩ (some ⟨7, "X"⟩)).2 = []) :=
  ⟨(addPeer_spec ⟨1, 0, [], [], [], false⟩ ⟨7, "X"⟩).1,
    (addPeer_spec ⟨1, 1, [], [], [], false⟩ ⟨7, "X"⟩).2.1 (by decide),
    (addPeer_spec ⟨1, 0, [], [], [], false⟩ ⟨7, "X"⟩).2.2 rfl⟩

/-- C8: `removePeer` is idempotent: with a peer whose id is not in the map
the peer map is unchanged (silent no-op), and when the shutdown flag is set
it stops the peer without touching the map at all. -/
theorem removePeer_spec (s : ServerState) (p : Peer) :
    (alookup s.peers p.id = none → (removePeer s (some p)).1.peers = s.peers) ∧
    (s.shutdown ≠ 0 →
      (removePeer s (some p)).1 = s ∧ (removePeer s (some p)).2 = [p]) := by
  refine ⟨fun h => ?_, fun h => ?_⟩
  · by_cases hs : s.shutdown ≠ 0
    · simp [removePeer, hs]
    · simp [removePeer, hs, adelete_of_alookup_none s.peers p.id h]
  · simp [removePeer, h]

theorem removePeer_spec_witness :
    alookup ([(1, ⟨1, "A"⟩)] : PeerMap) 7 = none ∧
    (removePeer ⟨1, 0, [], [(1, ⟨1, "A"⟩)], [], false⟩ (some ⟨7, "X"⟩)).1.peers =
      [(1, ⟨1, "A"⟩)] ∧
    (removePeer ⟨1, 1, [], [(1, ⟨1, "A"⟩)], [], false⟩ (some ⟨1, "A"⟩)).1 =
      ⟨1, 1, [], [(1, ⟨1, "A"⟩)], [], false⟩ ∧
    (removePeer ⟨1, 1, [], [(1, ⟨1, "A"⟩)], [], false⟩ (some ⟨1, "A"⟩)).2 =
      [⟨1, "A"⟩] :=
  ⟨by decide,
    (removePeer_spec ⟨1, 0, [], [(1, ⟨1, "A"⟩)], [], false⟩ ⟨7, "X"⟩).1 (by decide),
    (removePeer_spec ⟨1, 1, [], [(1, ⟨1, "A"⟩)], [], false⟩ ⟨1, "A"⟩).2 (by decide) |>.1,
    (removePeer_spec ⟨1, 1, [], [(1, ⟨1, "A"⟩)], [], false⟩ ⟨1, "A"⟩).2 (by decide) |>.2⟩

/-- C9: when `addPeer` is called with a peer whose id equals the id of an
already-registered peer, the new peer silently replaces the old one: the
map now yields the new peer at that id, every other id is untouched, no
peer is told to stop (in particular not the replaced one), and `addPeer`
has no error result at all. -/
theorem addPeer_overwrites_duplicate (s : ServerState) (q p : Peer)
    (hsd : s.shutdown = 0) (hq : alookup s.peers q.id = some q)
    (hid : p.id = q.id) :
    alookup (addPeer s (some p)).1.peers p.id = some p ∧
    (addPeer s (some p)).2 = [] ∧
    (∀ k, k ≠ p.id → alookup (addPeer s (some p)).1.peers k = alookup s.peers k) := by
  refine ⟨?_, ?_, fun k hk => ?_⟩
  · simp [addPeer, hsd, alookup_ainsert]
  · simp [addPeer, hsd]
  · have hk2 : p.id ≠ k := fun h => hk h.symm
    simp [addPeer, hsd, alookup_ainsert, hk2]

theorem addPeer_overwrites_duplicate_witness :
    alookup ([(5, ⟨5, "A"⟩), (6, ⟨6, "B"⟩)] : PeerMap) 5 = some ⟨5, "A"⟩ ∧
    alookup
        (addPeer ⟨1, 0, [], [(5, ⟨5, "A"⟩), (6, ⟨6, "B"⟩)], [], false⟩
          (some ⟨5, "C"⟩)).1.peers 5 = some ⟨5, "C"⟩ ∧
    (addPeer ⟨1, 0, [], [(5, ⟨5, "A"⟩), (6, ⟨6, "B"⟩)], [], false⟩
        (some ⟨5, "C"⟩)).2 = [] ∧
    alookup
        (addPeer ⟨1, 0, [], [(5, ⟨5, "A"⟩), (6, ⟨6, "B"⟩)], [], false⟩
          (some ⟨5, "C"⟩)).1.peers 6 = some ⟨6, "B"⟩ :=
  ⟨by decide,
    (addPeer_overwrites_duplicate ⟨1, 0, [], [(5, ⟨5, "A"⟩), (6, ⟨6, "B"⟩)], [], false⟩
      ⟨5, "A"⟩ ⟨5, "C"⟩ rfl (by decide) rfl).1,
    (addPeer_overwrites_duplicate ⟨1, 0, [], [(5, ⟨5, "A"⟩), (6, ⟨6, "B"⟩)], [], false⟩
      ⟨5, "A"⟩ ⟨5, "C"⟩ rfl (by decide) rfl).2.1,
    by
      have h :=
        (addPeer_overwrites_duplicate ⟨1, 0, [], [(5, ⟨5, "A"⟩), (6, ⟨6, "B"⟩)], [], false⟩
          ⟨5, "A"⟩ ⟨5, "C"⟩ rfl (by decide) rfl).2.2 6 (by decide)
      simpa using h⟩

/-- C5: for a well-formed registry (keys unique, each peer stored under its
own id, as `addPeer` guarantees), `handleListPeers` replies with a freshly
built slice whose length equals the number of entries in the peer map and
whose peer ids contain no duplicates. -/
theorem listPeers_nodup_size (s : ServerState) (h : wellFormedPeers s.peers) :
    (handleListPeers s).length = s.peers.length ∧
    ((handleListPeers s).map Peer.id).Nodup := by
  constructor
  · simp [handleListPeers]
  · have hmap : (handleListPeers s).map Peer.id = s.peers.map Prod.fst := by
      simp only [handleListPeers, List.map_map]
      exact List.map_congr_left (fun e he => h.2 e he)
    rw [hmap]
    exact h.1

theorem listPeers_nodup_size_witness :
    wellFormedPeers [(1, ⟨1, "A"⟩), (2, ⟨2, "B"⟩)] ∧
    (handleListPeers ⟨1, 0, [], [(1, ⟨1, "A"⟩), (2, ⟨2, "B"⟩)], [], false⟩).length = 2 ∧
    ((handleListPeers ⟨1, 0, [], [(1, ⟨1, "A"⟩), (2, ⟨2, "B"⟩)], [], false⟩).map
        Peer.id).Nodup :=
  ⟨⟨by decide, by decide⟩,
    (listPeers_nodup_size ⟨1, 0, [], [(1, ⟨1, "A"⟩), (2, ⟨2, "B"⟩)], [], false⟩
      ⟨by decide, by decide⟩).1,
    (listPeers_nodup_size ⟨1, 0, [], [(1, ⟨1, "A"⟩), (2, ⟨2, "B"⟩)], [], false⟩
      ⟨by decide, by decide⟩).2⟩

/-- C1 fails on the code: with two registered peers both at address `"X"`,
`handleConnectPeer` for `"X"` pushes two values into each single-slot
reply channel instead of one (the scan does not stop at the first match),
and it launches the outbound dial goroutine even though a match was found
(so a new connection attempt is made).  This contradicts the claimed
behaviour at every point where the claim constrains it. -/
theorem connectPeer_duplicate_scan_bug :
    (handleConnectPeer
        ⟨1, 0, [], [(1, ⟨1, "X"⟩), (2, ⟨2, "X"⟩)], [], false⟩ "X").errSends =
      ["already connected to peer: X", "already connected to peer: X"] ∧
    (handleConnectPeer
        ⟨1, 0, [], [(1, ⟨1, "X"⟩), (2, ⟨2, "X"⟩)], [], false⟩ "X").respSends =
      [-1, -1] ∧
    (handleConnectPeer
        ⟨1, 0, [], [(1, ⟨1, "X"⟩), (2, ⟨2, "X"⟩)], [], false⟩ "X").dialLaunched =
      true := by
  refine ⟨rfl, rfl, rfl⟩

/-- C2 fails on the code: in a state where the channel-outpoint index holds
an entry for the registered peer 1, `removePeer` deletes the peer from the
id map but leaves the index entry in place, so the entry now references an
id absent from the map — it is not removed in the same step. -/
theorem removePeer_dangling_chanIndex_cex :
    chanIndexOk ⟨1, 0, [], [(1, ⟨1, "A"⟩)], [(⟨0, 0⟩, ⟨1, "A"⟩)], false⟩ = true ∧
    chanIndexOk
        (removePeer ⟨1, 0, [], [(1, ⟨1, "A"⟩)], [(⟨0, 0⟩, ⟨1, "A"⟩)], false⟩
          (some ⟨1, "A"⟩)).1 = false ∧
    (removePeer ⟨1, 0, [], [(1, ⟨1, "A"⟩)], [(⟨0, 0⟩, ⟨1, "A"⟩)], false⟩
        (some ⟨1, "A"⟩)).1.chanIndex = [(⟨0, 0⟩, ⟨1, "A"⟩)] := by
  refine ⟨rfl, rfl, rfl⟩

/-- C2 amended: `addPeer` always preserves the invariant that every
channel-outpoint index entry references an id present in the peer map, and
`removePeer` preserves it exactly when no index entry references the
removed peer's id; an entry referencing the removed id is left dangling
rather than removed in the same step. -/
theorem chanIndex_invariant_amended (s : ServerState) (p : Peer)
    (hok : chanIndexOk s = true) :
    chanIndexOk (addPeer s (some p)).1 = true ∧
    (s.chanIndex.all (fun e => e.2.id != p.id) = true →
      chanIndexOk (removePeer s (some p)).1 = true) := by
  by_cases hs : s.shutdown = 0
  · constructor
    · rw [addPeer_state s p hs]
      simp only [chanIndexOk, List.all_eq_true] at hok ⊢
      intro e he
      have h1 := hok e he
      rw [alookup_ainsert]
      by_cases hpe : p.id = e.2.id
      · simp [hpe]
      · simpa [hpe] using h1
    · intro hno
      rw [removePeer_state s p hs]
      simp only [List.all_eq_true, bne_iff_ne, ne_eq] at hno
      simp only [chanIndexOk, List.all_eq_true] at hok ⊢
      intro e he
      have h1 := hok e he
      have h2 := hno e he
      have h3 : p.id ≠ e.2.id := fun h => h2 h.symm
      rw [alookup_adelete]
      simpa [h3] using h1
  · constructor
    · rw [addPeer_state_sd s p hs]
      exact hok
    · intro _
      rw [removePeer_state_sd s p hs]
      exact hok

theorem chanIndex_invariant_amended_witness :
    chanIndexOk ⟨1, 0, [], [(1, ⟨1, "A"⟩), (2, ⟨2, "B"⟩)],
        [(⟨0, 0⟩, ⟨2, "B"⟩)], false⟩ = true ∧
    chanIndexOk
        (addPeer ⟨1, 0, [], [(1, ⟨1, "A"⟩), (2, ⟨2, "B"⟩)],
            [(⟨0, 0⟩, ⟨2, "B"⟩)], false⟩ (some ⟨3, "C"⟩)).1 = true ∧
    chanIndexOk
        (removePeer ⟨1, 0, [], [(1, ⟨1, "A"⟩), (2, ⟨2, "B"⟩)],
            [(⟨0, 0⟩, ⟨2, "B"⟩)], false⟩ (some ⟨1, "A"⟩)).1 = true :=
  ⟨by decide,
    (chanIndex_invariant_amended
      ⟨1, 0, [], [(1, ⟨1, "A"⟩), (2, ⟨2, "B"⟩)], [(⟨0, 0⟩, ⟨2, "B"⟩)], false⟩
      ⟨3, "C"⟩ (by decide)).1,
    (chanIndex_invariant_amended
      ⟨1, 0, [], [(1, ⟨1, "A"⟩), (2, ⟨2, "B"⟩)], [(⟨0, 0⟩, ⟨2, "B"⟩)], false⟩
      ⟨1, "A"⟩ (by decide)).2 (by decide)⟩

/-- C3: on either failure path of the dial goroutine (`conn.Dial` error or
`newPeer` error) the dialer replies to the caller with the error and the
sentinel id `-1`, and performs no registry mutation: the peer map is
exactly the one from before the attempt and no peer is published towards
the registry. -/
theorem dialer_failure_no_mutation (peers : PeerMap) (o : DialOutcome)
    (h : o.isFailure = true) :
    (connectDialer peers o).1 = peers ∧
    DialEvent.respSend (-1) ∈ (connectDialer peers o).2 ∧
    (∃ e, DialEvent.errSend (some e) ∈ (connectDialer peers o).2) ∧
    (∀ p, DialEvent.publishNewPeer p ∉ (connectDialer peers o).2) := by
  cases o with
  | dialFailure e =>
    exact ⟨rfl, by simp [connectDialer], ⟨e, by simp [connectDialer]⟩,
      fun p => by simp [connectDialer]⟩
  | newPeerFailure e =>
    exact ⟨rfl, by simp [connectDialer], ⟨e, by simp [connectDialer]⟩,
      fun p => by simp [connectDialer]⟩
  | success p => simp [DialOutcome.isFailure] at h

theorem dialer_failure_no_mutation_witness :
    (DialOutcome.dialFailure "connection refused").isFailure = true ∧
    ((connectDialer [(1, ⟨1, "A"⟩)] (.dialFailure "connection refused")).1 =
        [(1, ⟨1, "A"⟩)] ∧
      DialEvent.respSend (-1) ∈
        (connectDialer [(1, ⟨1, "A"⟩)] (.dialFailure "connection refused")).2 ∧
      (∃ e, DialEvent.errSend (some e) ∈
        (connectDialer [(1, ⟨1, "A"⟩)] (.dialFailure "connection refused")).2) ∧
      (∀ p, DialEvent.publishNewPeer p ∉
        (connectDialer [(1, ⟨1, "A"⟩)] (.dialFailure "connection refused")).2)) :=
  ⟨rfl, dialer_failure_no_mutation [(1, ⟨1, "A"⟩)] (.dialFailure "connection refused") rfl⟩

/-- C4: when a listener `Close()` fails during the first `Stop()`, `Stop`
returns that error at once, the rpc server / wallet / funding manager
teardown hooks are not invoked, `close(s.quit)` is not executed, and the
listener-closing loop stopped at the failing listener. -/
theorem stop_aborts_on_close_error (s : ServerState) (n : Nat) (e : String)
    (hsd : s.shutdown = 0)
    (hfail : closeListeners s.listeners = (n, some e)) :
    (Stop s).2.2 = some e ∧
    (Stop s).2.1.rpcStopped = false ∧
    (Stop s).2.1.walletShutdown = false ∧
    (Stop s).2.1.fundingStopped = false ∧
    (Stop s).2.1.quitBroadcast = false ∧
    (Stop s).1.quitClosed = s.quitClosed ∧
    (Stop s).2.1.closeCalls = n := by
  have h2 : (closeListeners s.listeners).2 = some e := by rw [hfail]
  have h1 : (closeListeners s.listeners).1 = n := by rw [hfail]
  simp [Stop, hsd, h2, h1]

theorem stop_aborts_on_close_error_witness :
    closeListeners [⟨some "close failed"⟩, ⟨none⟩] = (1, some "close failed") ∧
    ((Stop ⟨1, 0, [⟨some "close failed"⟩, ⟨none⟩], [], [], false⟩).2.2 =
        some "close failed" ∧
      (Stop ⟨1, 0, [⟨some "close failed"⟩, ⟨none⟩], [], [], false⟩).2.1.rpcStopped =
        false ∧
      (Stop ⟨1, 0, [⟨some "close failed"⟩, ⟨none⟩], [], [], false⟩).2.1.walletShutdown =
        false ∧
      (Stop ⟨1, 0, [⟨some "close failed"⟩, ⟨none⟩], [], [], false⟩).2.1.fundingStopped =
        false ∧
      (Stop ⟨1, 0, [⟨some "close failed"⟩, ⟨none⟩], [], [], false⟩).2.1.quitBroadcast =
        false ∧
      (Stop ⟨1, 0, [⟨some "close failed"⟩, ⟨none⟩], [], [], false⟩).1.quitClosed =
        false ∧
      (Stop ⟨1, 0, [⟨some "close failed"⟩, ⟨none⟩], [], [], false⟩).2.1.closeCalls = 1) :=
  ⟨rfl, stop_aborts_on_close_error ⟨1, 0, [⟨some "close failed"⟩, ⟨none⟩], [], [], false⟩
    1 "close failed" rfl rfl⟩

/-- C6: `Stop` is one-shot.  A first call (shutdown counter 0) whose
listener closes all succeed performs the full teardown: every listener is
closed, the rpc server, wallet and funding manager hooks all run, the
cancellation signal is broadcast, and `nil` is returned, leaving the
shutdown counter non-zero.  Any call finding a non-zero shutdown counter
returns `nil` immediately with no `Close` calls, no teardown hooks and no
state change besides the counter. -/
theorem stop_one_shot (s : ServerState)
    (hfresh : s.shutdown = 0)
    (hok : (closeListeners s.listeners).2 = none) :
    ((Stop s).2.2 = none ∧
      (Stop s).2.1.closeCalls = s.listeners.length ∧
      (Stop s).2.1.rpcStopped = true ∧
      (Stop s).2.1.walletShutdown = true ∧
      (Stop s).2.1.fundingStopped = true ∧
      (Stop s).2.1.quitBroadcast = true ∧
      (Stop s).1.quitClosed = true ∧
      (Stop s).1.shutdown ≠ 0) ∧
    (∀ s2 : ServerState, s2.shutdown ≠ 0 →
      (Stop s2).2.2 = none ∧
      (Stop s2).2.1 = ⟨0, false, false, false, false⟩ ∧
      (Stop s2).1.listeners = s2.listeners ∧
      (Stop s2).1.peers = s2.peers ∧
      (Stop s2).1.quitClosed = s2.quitClosed) := by
  constructor
  · have hc := closeListeners_ok_count s.listeners hok
    simp [Stop, hfresh, hok, hc]
  · intro s2 h2
    have hne : s2.shutdown + 1 ≠ 1 := by omega
    simp [Stop, hne]

theorem stop_one_shot_witness :
    (closeListeners [⟨none⟩, ⟨none⟩]).2 = none ∧
    ((Stop ⟨1, 0, [⟨none⟩, ⟨none⟩], [], [], false⟩).2.2 = none ∧
      (Stop ⟨1, 0, [⟨none⟩, ⟨none⟩], [], [], false⟩).2.1.closeCalls = 2 ∧
      (Stop ⟨1, 0, [⟨none⟩, ⟨none⟩], [], [], false⟩).2.1.quitBroadcast = true) ∧
    ((Stop ⟨1, 1, [⟨none⟩, ⟨none⟩], [], [], true⟩).2.2 = none ∧
      (Stop ⟨1, 1, [⟨none⟩, ⟨none⟩], [], [], true⟩).2.1 =
        ⟨0, false, false, false, false⟩) :=
  ⟨rfl,
    ⟨(stop_one_shot ⟨1, 0, [⟨none⟩, ⟨none⟩], [], [], false⟩ rfl rfl).1.1,
      (stop_one_shot ⟨1, 0, [⟨none⟩, ⟨none⟩], [], [], false⟩ rfl rfl).1.2.1,
      (stop_one_shot ⟨1, 0, [⟨none⟩, ⟨none⟩], [], [], false⟩ rfl rfl).1.2.2.2.2.2.1⟩,
    ⟨((stop_one_shot ⟨1, 0, [⟨none⟩, ⟨none⟩], [], [], false⟩ rfl rfl).2
        ⟨1, 1, [⟨none⟩, ⟨none⟩], [], [], true⟩ (by decide)).1,
      ((stop_one_shot ⟨1, 0, [⟨none⟩, ⟨none⟩], [], [], false⟩ rfl rfl).2
        ⟨1, 1, [⟨none⟩, ⟨none⟩], [], [], true⟩ (by decide)).2.1⟩⟩

/-- C10: once the query handler has exited its loop (the situation after
`Stop()` has completed, since `Stop` waits for the handler via
`s.wg.Wait()`), a `Peers()` call blocked on its unguarded send on the
unbuffered `s.queries` channel can never complete: along every sequence of
steps of the system, the caller stays at the send and never reaches the
returned state. -/
theorem peers_blocked_after_stop (s0 s : QuerySysState)
    (h0 : s0.handler = .exited) (hc : s0.caller = .sending)
    (hsteps : Relation.ReflTransGen QueryStep s0 s) :
    s.caller = .sending ∧ s.caller ≠ .returned := by
  have key : s.handler = .exited ∧ s.caller = .sending := by
    induction hsteps with
    | refl => exact ⟨h0, hc⟩
    | tail hab hbc ih =>
      obtain ⟨hh, hcal⟩ := ih
      cases hbc with
      | recvQuery q => exact HandlerPhase.noConfusion hh
      | reply q => exact CallerPhase.noConfusion hcal
      | observeQuit c => exact HandlerPhase.noConfusion hh
  refine ⟨key.2, ?_⟩
  rw [key.2]
  decide

theorem peers_blocked_after_stop_witness :
    (⟨.exited, true, .sending⟩ : QuerySysState).handler = .exited ∧
    (⟨.exited, true, .sending⟩ : QuerySysState).caller ≠ .returned :=
  ⟨rfl,
    (peers_blocked_after_stop ⟨.exited, true, .sending⟩ ⟨.exited, true, .sending⟩
      rfl rfl Relation.ReflTransGen.refl).2⟩

end LndServer
